import Mathlib

/-!
Shallow embedding of `google/cloud/runtimeconfig/variable.py` from the
`googleapis/python-runtimeconfig` repository.

The Python `Variable` class is a proxy over a remote HTTP resource.  We model:
  - the property dictionary `_properties` as an association list from string
    keys to JSON-ish values (`JVal`), with Python-dict semantics for
    assignment (replace in place or append) and `pop` (remove the entry);
  - Python exceptions as an `Except PyErr` result: a raised exception leaves
    the receiver unchanged, so mutating methods return `Except PyErr Variable`;
  - the remote connection (`client._connection.api_request`) as a function
    from a request record to `Except ApiError Dict`, covering the three
    outcomes the code distinguishes: a decoded JSON body, `NotFound`,
    `Conflict` (anything else is `ApiError.other` and propagates);
  - CPython `base64.b64encode` / `base64.b64decode` over byte sequences,
    where `b64decode` is modelled on its standard-alphabet, canonically
    padded inputs (CPython additionally discards non-alphabet bytes before
    decoding; no input in this development contains any).

The spec names the exceptions abstractly; they correspond to the code so:
  - `ConflictingFieldsError` : `exceptions.Error("Value and text are mutually exclusive.")`
  - `MissingPayloadError`    : `exceptions.Error("No text or value set.")`
  - `InvalidStateError`      : `ValueError("Missing variable name.")`
-/

/-- Equality of `Except` results is decidable componentwise; used to evaluate
the embedding on concrete inputs. -/
instance {ε α : Type} [DecidableEq ε] [DecidableEq α] : DecidableEq (Except ε α) := fun x y =>
  match x, y with
  | .ok a, .ok b =>
      if h : a = b then .isTrue (by rw [h]) else .isFalse (by intro hh; cases hh; exact h rfl)
  | .error a, .error b =>
      if h : a = b then .isTrue (by rw [h]) else .isFalse (by intro hh; cases hh; exact h rfl)
  | .ok _, .error _ => .isFalse (by intro hh; cases hh)
  | .error _, .ok _ => .isFalse (by intro hh; cases hh)

/-- A byte sequence (each entry a byte value, `0 ≤ b < 256`). -/
abbrev ByteSeq := List Nat

/-- A JSON-ish value stored in the property dictionary: the code stores both
Python `str` values (from server responses and the `text` setter) and raw
`bytes` values (from the `value` setter). -/
inductive JVal where
  | str : String → JVal
  | bytes : ByteSeq → JVal
deriving DecidableEq, Repr

/-- A Python dict from string keys to values, as an association list.  All
dictionaries built by the code have pairwise-distinct keys. -/
abbrev Dict := List (String × JVal)

/-- Python `d.get(k)` / `d[k]`. -/
def Dict.lookup : Dict → String → Option JVal
  | [], _ => none
  | (k, v) :: rest, key => if k = key then some v else Dict.lookup rest key

/-- Python `d[k] = v`: replace the binding in place if the key is present,
otherwise append it. -/
def Dict.setKey : Dict → String → JVal → Dict
  | [], key, v => [(key, v)]
  | (k, w) :: rest, key, v =>
      if k = key then (key, v) :: rest else (k, w) :: Dict.setKey rest key v

/-- Python `d.pop(k)`: remove the (first) binding of the key. -/
def Dict.erase : Dict → String → Dict
  | [], _ => []
  | (k, w) :: rest, key => if k = key then rest else (k, w) :: Dict.erase rest key

/-- The standard base64 alphabet used by `base64.b64encode`/`b64decode`. -/
def b64alphabet : List Char :=
  "ABCDEFGHIJKLMNOPQRSTUVWXYZabcdefghijklmnopqrstuvwxyz0123456789+/".toList

/-- The alphabet character for a six-bit group. -/
def sextetChar (n : Nat) : Char := b64alphabet.getD n 'A'

/-- The six-bit value of an alphabet character, `none` for a character outside
the alphabet. -/
def sextetOfChar (c : Char) : Option Nat := b64alphabet.findIdx? (· = c)

/-- CPython `base64.b64encode`, producing the character sequence: each group
of three bytes becomes four alphabet characters, a trailing group of two or
one byte is padded with one or two `=`. -/
def b64encodeChunks : ByteSeq → List Char
  | a :: b :: c :: rest =>
      let n := a % 256 * 65536 + b % 256 * 256 + c % 256
      sextetChar (n / 262144) :: sextetChar (n / 4096 % 64) ::
        sextetChar (n / 64 % 64) :: sextetChar (n % 64) :: b64encodeChunks rest
  | [a, b] =>
      let n := a % 256 * 65536 + b % 256 * 256
      [sextetChar (n / 262144), sextetChar (n / 4096 % 64), sextetChar (n / 64 % 64), '=']
  | [a] =>
      let n := a % 256 * 65536
      [sextetChar (n / 262144), sextetChar (n / 4096 % 64), '=', '=']
  | [] => []

/-- CPython `base64.b64encode(...).decode("utf-8")` as a string. -/
def b64encode (bs : ByteSeq) : String := String.mk (b64encodeChunks bs)

/-- CPython `base64.b64decode` on standard-alphabet, canonically padded
input: groups of four characters decode to three bytes, a final group may
carry one or two `=` padding characters.  Inputs whose length is not a
multiple of four, or containing a character outside the alphabet where a
data character is required, fail (CPython raises `binascii.Error`; CPython
additionally discards non-alphabet bytes first, which never arises here). -/
def b64decodeChunks : List Char → Option ByteSeq
  | [] => some []
  | [c1, c2, '=', '='] => do
      let s1 ← sextetOfChar c1
      let s2 ← sextetOfChar c2
      pure [s1 * 4 + s2 / 16]
  | [c1, c2, c3, '='] => do
      let s1 ← sextetOfChar c1
      let s2 ← sextetOfChar c2
      let s3 ← sextetOfChar c3
      pure [s1 * 4 + s2 / 16, s2 % 16 * 16 + s3 / 4]
  | c1 :: c2 :: c3 :: c4 :: rest => do
      let s1 ← sextetOfChar c1
      let s2 ← sextetOfChar c2
      let s3 ← sextetOfChar c3
      let s4 ← sextetOfChar c4
      let tail ← b64decodeChunks rest
      pure ((s1 * 4 + s2 / 16) :: (s2 % 16 * 16 + s3 / 4) :: (s3 % 4 * 64 + s4) :: tail)
  | _ => none

/-- CPython `base64.b64decode` over a character sequence. -/
def b64decode (cs : List Char) : Option ByteSeq := b64decodeChunks cs

/-- The character sequence `base64.b64decode` sees: a `str` argument is taken
character by character, a `bytes` argument byte by byte. -/
def jvalChars : JVal → List Char
  | .str s => s.toList
  | .bytes bs => bs.map (fun b => Char.ofNat (b % 256))

/-- Error outcome of a remote `api_request`: the code distinguishes
`google.cloud.exceptions.NotFound`, `google.cloud.exceptions.Conflict`, and
everything else (which it never catches). -/
inductive ApiError where
  | notFound
  | conflict
  | other
deriving DecidableEq, Repr

/-- A Python exception escaping a `Variable` method. -/
inductive PyErr where
  | runtimeconfigError (msg : String)
  | valueError (msg : String)
  | typeError (msg : String)
  | binasciiError (msg : String)
  | api (e : ApiError)
deriving DecidableEq, Repr

/-- A request to `client._connection.api_request`. -/
structure Request where
  method : String
  path : String
  data : Option Dict
  query_params : Option Dict
deriving DecidableEq, Repr

/-- The remote connection collaborator: `client._connection.api_request`. -/
abbrev Connection := Request → Except ApiError Dict

/-- The owning `Config` collaborator, as `variable.py` uses it: the code
reads `config.full_name` (in `full_name`) and `config.path` (in `create`).
`config.client` only selects the connection, which we pass explicitly. -/
structure Config where
  full_name : String
  path : String
deriving DecidableEq, Repr

/-- `Variable.__init__(self, name, config)` state: `name`, `config`, and the
`_properties` dictionary. -/
structure Variable where
  name : String
  config : Config
  _properties : Dict
deriving DecidableEq, Repr

/-- `Variable(name, config)`: a fresh variable with an empty property
dictionary. -/
def Variable.init (name : String) (config : Config) : Variable :=
  ⟨name, config, []⟩

/-- Split a character sequence at every `/`. -/
def splitSlash : List Char → List (List Char)
  | [] => [[]]
  | c :: rest =>
      if c = '/' then [] :: splitSlash rest
      else
        match splitSlash rest with
        | [] => [[c]]
        | s :: ss => (c :: s) :: ss

/-- Join character sequences with `/` between them. -/
def joinSlash : List (List Char) → List Char
  | [] => []
  | [s] => s
  | s :: ss => s ++ '/' :: joinSlash ss

/-- Modelled from the spec: `variable_name_from_full_name` lives in
`google/cloud/runtimeconfig/_helpers.py`, which is not part of the given
sources.  Per the spec, a variable resource is addressed
`projects/{project}/configs/{config_name}/variables/{variable_name}` and the
local name is derived from the fully-qualified resource name, e.g.
`projects/p/configs/c/variables/v2` yields `v2`: the name is everything after
the fifth `/`. -/
def variable_name_from_full_name (full_name : String) : String :=
  String.mk (joinSlash (List.drop 5 (splitSlash full_name.toList)))

/-- `Variable.full_name`: raises `ValueError` when the name is empty,
otherwise `"%s/variables/%s" % (self.config.full_name, self.name)`. -/
def Variable.full_name (v : Variable) : Except PyErr String :=
  if v.name = "" then .error (.valueError "Missing variable name.")
  else .ok (v.config.full_name ++ "/variables/" ++ v.name)

/-- `Variable.path`: `"/%s" % (self.full_name,)`. -/
def Variable.path (v : Variable) : Except PyErr String :=
  match v.full_name with
  | .error e => .error e
  | .ok fn => .ok ("/" ++ fn)

/-- `Variable.text` getter: `self._properties.get("text")`, returned as
stored. -/
def Variable.text_get (v : Variable) : Option JVal :=
  Dict.lookup v._properties "text"

/-- `Variable.text` setter: raises `Error` when a `value` payload is present,
otherwise stores the text under the `"text"` key.  No remote call is made. -/
def Variable.text_set (v : Variable) (value : String) : Except PyErr Variable :=
  if (Dict.lookup v._properties "value").isSome then
    .error (.runtimeconfigError "Value and text are mutually exclusive.")
  else .ok ⟨v.name, v.config, Dict.setKey v._properties "text" (.str value)⟩

/-- `Variable.value` getter: `self._properties.get("value")`, base64-decoded
when present (`base64.b64decode` raises `binascii.Error` on invalid input). -/
def Variable.value_get (v : Variable) : Except PyErr (Option ByteSeq) :=
  match Dict.lookup v._properties "value" with
  | none => .ok none
  | some jv =>
      match b64decode (jvalChars jv) with
      | none => .error (.binasciiError "Invalid base64-encoded string")
      | some bs => .ok (some bs)

/-- `Variable.value` setter: raises `Error` when a `text` payload is present,
otherwise stores the given bytes, unencoded, under the `"value"` key.  No
remote call is made. -/
def Variable.value_set (v : Variable) (value : ByteSeq) : Except PyErr Variable :=
  if (Dict.lookup v._properties "text").isSome then
    .error (.runtimeconfigError "Value and text are mutually exclusive.")
  else .ok ⟨v.name, v.config, Dict.setKey v._properties "value" (.bytes value)⟩

/-- `Variable._set_properties(resource)`: clear the property dictionary, copy
the resource, pop the `"name"` key into the local name (via
`variable_name_from_full_name`), and store the rest.  Since the dictionary is
cleared first, the result holds exactly the resource minus its `"name"` key,
whatever was held before. -/
def Variable.set_properties (v : Variable) (resource : Dict) : Variable :=
  match Dict.lookup resource "name" with
  | some jv =>
      ⟨variable_name_from_full_name (String.mk (jvalChars jv)), v.config,
        Dict.erase resource "name"⟩
  | none => ⟨v.name, v.config, resource⟩

/-- `Variable.from_api_repr(resource, config)`: derive the name from the
resource (`resource.get("name")` must be a string, else the helper raises),
construct the variable, and absorb the resource. -/
def Variable.from_api_repr (resource : Dict) (config : Config) : Except PyErr Variable :=
  match Dict.lookup resource "name" with
  | some jv =>
      .ok (Variable.set_properties
        ⟨variable_name_from_full_name (String.mk (jvalChars jv)), config, []⟩ resource)
  | none => .error (.valueError "full variable name expected")

/-- `Variable._get_payload()`: start from `{"name": self.full_name}` (so an
empty name raises `ValueError` first); add `text` verbatim when present, else
`value` base64-encoded when present (`b64encode` requires bytes: a `str`
stored by a server response raises `TypeError`), else raise `Error`. -/
def Variable.get_payload (v : Variable) : Except PyErr Dict :=
  match v.full_name with
  | .error e => .error e
  | .ok fn =>
      match Dict.lookup v._properties "text" with
      | some t => .ok [("name", .str fn), ("text", t)]
      | none =>
          match Dict.lookup v._properties "value" with
          | some (.bytes bs) => .ok [("name", .str fn), ("value", .str (b64encode bs))]
          | some (.str _) => .error (.typeError "a bytes-like object is required, not str")
          | none => .error (.runtimeconfigError "No text or value set.")

/-- `Variable.create(client)`: POST the payload to
`"%s/variables" % self.config.path`; a `Conflict` from the connection yields
`False` with the variable untouched, any other connection error propagates,
and a success response is absorbed via `_set_properties` before returning
`True`. -/
def Variable.create (v : Variable) (conn : Connection) : Except PyErr (Variable × Bool) :=
  match v.get_payload with
  | .error e => .error e
  | .ok data =>
      match conn ⟨"POST", v.config.path ++ "/variables", some data, none⟩ with
      | .error .conflict => .ok (v, false)
      | .error e => .error (.api e)
      | .ok resp => .ok (v.set_properties resp, true)

/-- `Variable.update(client)`: PUT the payload to `self.path`; a `NotFound`
from the connection yields `False` with the variable untouched, any other
connection error propagates, and a success response is absorbed via
`_set_properties` before returning `True`. -/
def Variable.update (v : Variable) (conn : Connection) : Except PyErr (Variable × Bool) :=
  match v.get_payload with
  | .error e => .error e
  | .ok data =>
      match v.path with
      | .error e => .error e
      | .ok p =>
          match conn ⟨"PUT", p, some data, none⟩ with
          | .error .notFound => .ok (v, false)
          | .error e => .error (.api e)
          | .ok resp => .ok (v.set_properties resp, true)

/-- `Variable.exists(client)`: GET `self.path` with `{"fields": "name"}`;
`True` on success, `False` on `NotFound`, any other connection error
propagates.  The response body is discarded: neither the name nor the
property dictionary is touched. -/
def Variable.exists_ (v : Variable) (conn : Connection) : Except PyErr (Variable × Bool) :=
  match v.path with
  | .error e => .error e
  | .ok p =>
      match conn ⟨"GET", p, none, some [("fields", JVal.str "name")]⟩ with
      | .error .notFound => .ok (v, false)
      | .error e => .error (.api e)
      | .ok _ => .ok (v, true)

/-- `Variable.reload(client)`: GET `self.path` with no error handling — every
connection error, `NotFound` included, propagates; a success response is
absorbed via `_set_properties`. -/
def Variable.reload (v : Variable) (conn : Connection) : Except PyErr Variable :=
  match v.path with
  | .error e => .error e
  | .ok p =>
      match conn ⟨"GET", p, none, none⟩ with
      | .error e => .error (.api e)
      | .ok resp => .ok (v.set_properties resp)

/-- One mutating operation on a `Variable`: the two payload setters, a direct
absorption of a server resource (`_set_properties`, as used by
`from_api_repr`), and the three remote operations that absorb their response
(`exists` never mutates and is omitted). -/
inductive Op where
  | setText (t : String)
  | setValue (b : ByteSeq)
  | absorb (r : Dict)
  | create (conn : Connection)
  | update (conn : Connection)
  | reload (conn : Connection)

/-- Run one operation with Python exception semantics: a raised exception
leaves the variable as it was. -/
def stepOp (v : Variable) : Op → Variable
  | .setText t =>
      match v.text_set t with
      | .ok w => w
      | .error _ => v
  | .setValue b =>
      match v.value_set b with
      | .ok w => w
      | .error _ => v
  | .absorb r => v.set_properties r
  | .create conn =>
      match v.create conn with
      | .ok (w, _) => w
      | .error _ => v
  | .update conn =>
      match v.update conn with
      | .ok (w, _) => w
      | .error _ => v
  | .reload conn =>
      match v.reload conn with
      | .ok w => w
      | .error _ => v

/-- Whether the property dictionary holds both a `text` and a `value` key. -/
def bothSet (v : Variable) : Bool :=
  (Dict.lookup v._properties "text").isSome && (Dict.lookup v._properties "value").isSome

/-- A server resource carrying at most one of the `text` and `value` keys. -/
def respOk (r : Dict) : Bool :=
  !((Dict.lookup r "text").isSome && (Dict.lookup r "value").isSome)

/-- Side condition on an operation: every server resource it absorbs carries
at most one of `text` and `value`.  Setters carry no resource. -/
def opOk : Op → Prop
  | .setText _ => True
  | .setValue _ => True
  | .absorb r => respOk r = true
  | .create conn => ∀ req resp, conn req = .ok resp → respOk resp = true
  | .update conn => ∀ req resp, conn req = .ok resp → respOk resp = true
  | .reload conn => ∀ req resp, conn req = .ok resp → respOk resp = true

/-- Config fixture used by the concrete witnesses: full name
`projects/p/configs/c`, path `/projects/p/configs/c`. -/
def cfg0 : Config := ⟨"projects/p/configs/c", "/projects/p/configs/c"⟩

/-- A fresh variable named `v1` under `cfg0`. -/
def v1 : Variable := Variable.init "v1" cfg0

/-- A variable with an empty name under `cfg0`. -/
def vEmpty : Variable := Variable.init "" cfg0

/-- A variable holding only the text payload `"hello"`. -/
def vText : Variable := ⟨"v1", cfg0, [("text", JVal.str "hello")]⟩

/-- A variable holding only the bytes payload `b"hi"` as the setter stores
it (raw). -/
def vBytes : Variable := ⟨"v1", cfg0, [("value", JVal.bytes [104, 105])]⟩

/-- A variable holding both payload keys, as absorbed from a server response
carrying both (`"eQ=="` is base64 for `b"y"`). -/
def vBoth : Variable := ⟨"v1", cfg0, [("text", JVal.str "x"), ("value", JVal.str "eQ==")]⟩

/-- A server resource renaming the variable to `v2` with a text payload. -/
def respV2 : Dict := [("name", JVal.str "projects/p/configs/c/variables/v2"), ("text", JVal.str "x")]

/-- A connection stub that always reports `NotFound`. -/
def connNotFound : Connection := fun _ => .error .notFound

/-- A connection stub that always reports `Conflict`. -/
def connConflict : Connection := fun _ => .error .conflict

/-- A connection stub that always succeeds with `respV2`. -/
def connRespV2 : Connection := fun _ => .ok respV2

/-- Looking up after a Python dict assignment: the assigned key maps to the
new value, every other key is untouched. -/
theorem Dict.lookup_setKey (d : Dict) (k k' : String) (v : JVal) :
    Dict.lookup (Dict.setKey d k v) k' = if k = k' then some v else Dict.lookup d k' := by
  induction d with
  | nil => simp [Dict.setKey, Dict.lookup]
  | cons hd tl ih =>
      obtain ⟨k₀, w⟩ := hd
      by_cases h₀ : k₀ = k
      · subst h₀
        by_cases h1 : k₀ = k'
        · subst h1
          simp [Dict.setKey, Dict.lookup]
        · simp [Dict.setKey, Dict.lookup, h1]
      · by_cases h1 : k₀ = k'
        · subst h1
          have hk : k ≠ k₀ := fun h => h₀ h.symm
          simp [Dict.setKey, Dict.lookup, h₀, hk]
        · simp [Dict.setKey, Dict.lookup, h₀, h1, ih]

/-- Popping one key leaves the lookup of every other key unchanged. -/
theorem Dict.lookup_erase (d : Dict) (k k' : String) (h : k ≠ k') :
    Dict.lookup (Dict.erase d k) k' = Dict.lookup d k' := by
  induction d with
  | nil => simp [Dict.erase, Dict.lookup]
  | cons hd tl ih =>
      obtain ⟨k₀, w⟩ := hd
      by_cases h₀ : k₀ = k
      · subst h₀
        have hk : k₀ ≠ k' := h
        simp [Dict.erase, Dict.lookup, hk]
      · simp [Dict.erase, Dict.lookup, h₀, ih]

/-- After `_set_properties`, the payload keys read exactly as in the absorbed
resource (the only key removed is `name`). -/
theorem set_properties_lookup (v : Variable) (r : Dict) (k : String)
    (hk : k ≠ "name") :
    Dict.lookup (v.set_properties r)._properties k = Dict.lookup r k := by
  unfold Variable.set_properties
  rcases hn : Dict.lookup r "name" with _ | jv
  · simp
  · simpa using Dict.lookup_erase r "name" k (fun h => hk h.symm)


/-- A successful `create` either left the variable alone (conflict) or
absorbed some connection response. -/
theorem create_state_shape (v : Variable) (conn : Connection) (w : Variable) (b : Bool)
    (h : v.create conn = .ok (w, b)) :
    w = v ∨ ∃ req resp, conn req = .ok resp ∧ w = v.set_properties resp := by
  unfold Variable.create at h
  split at h
  · cases h
  · split at h
    · cases h
      exact Or.inl rfl
    · cases h
    · rename_i resp heq
      cases h
      exact Or.inr ⟨_, resp, heq, rfl⟩

/-- A successful `update` either left the variable alone (not-found) or
absorbed some connection response. -/
theorem update_state_shape (v : Variable) (conn : Connection) (w : Variable) (b : Bool)
    (h : v.update conn = .ok (w, b)) :
    w = v ∨ ∃ req resp, conn req = .ok resp ∧ w = v.set_properties resp := by
  unfold Variable.update at h
  split at h
  · cases h
  · split at h
    · cases h
    · split at h
      · cases h
        exact Or.inl rfl
      · cases h
      · rename_i resp heq
        cases h
        exact Or.inr ⟨_, resp, heq, rfl⟩

/-- A successful `reload` absorbed some connection response. -/
theorem reload_state_shape (v : Variable) (conn : Connection) (w : Variable)
    (h : v.reload conn = .ok w) :
    ∃ req resp, conn req = .ok resp ∧ w = v.set_properties resp := by
  unfold Variable.reload at h
  split at h
  · cases h
  · split at h
    · cases h
    · rename_i resp heq
      cases h
      exact ⟨_, resp, heq, rfl⟩

/-- A successful `text_set` required the `value` key to be absent and wrote
only the `text` key. -/
theorem text_set_ok_shape (v w : Variable) (t : String) (h : v.text_set t = .ok w) :
    Dict.lookup v._properties "value" = none ∧
    w = ⟨v.name, v.config, Dict.setKey v._properties "text" (JVal.str t)⟩ := by
  unfold Variable.text_set at h
  split at h
  · cases h
  · rename_i hval
    cases h
    exact ⟨Option.not_isSome_iff_eq_none.mp hval, rfl⟩

/-- A successful `value_set` required the `text` key to be absent and wrote
only the `value` key. -/
theorem value_set_ok_shape (v w : Variable) (b : ByteSeq) (h : v.value_set b = .ok w) :
    Dict.lookup v._properties "text" = none ∧
    w = ⟨v.name, v.config, Dict.setKey v._properties "value" (JVal.bytes b)⟩ := by
  unfold Variable.value_set at h
  split at h
  · cases h
  · rename_i htext
    cases h
    exact ⟨Option.not_isSome_iff_eq_none.mp htext, rfl⟩

/-- Absorbing a resource that carries at most one payload key leaves at most
one payload key. -/
theorem bothSet_set_properties (v : Variable) (r : Dict) (h : respOk r = true) :
    bothSet (v.set_properties r) = false := by
  unfold respOk at h
  unfold bothSet
  rw [set_properties_lookup v r "text" (by decide),
      set_properties_lookup v r "value" (by decide)]
  revert h
  cases (Dict.lookup r "text").isSome <;> cases (Dict.lookup r "value").isSome <;> simp

/-- Each operation preserves the at-most-one-payload-key invariant, provided
every absorbed server resource satisfies `respOk`. -/
theorem stepOp_bothSet (v : Variable) (op : Op) (hv : bothSet v = false) (hop : opOk op) :
    bothSet (stepOp v op) = false := by
  cases op with
  | setText t =>
      rcases ht : v.text_set t with e | w
      · simp only [stepOp, ht]
        exact hv
      · simp only [stepOp, ht]
        obtain ⟨hval, rfl⟩ := text_set_ok_shape v w t ht
        simp [bothSet, Dict.lookup_setKey, hval]
  | setValue b =>
      rcases hs : v.value_set b with e | w
      · simp only [stepOp, hs]
        exact hv
      · simp only [stepOp, hs]
        obtain ⟨htext, rfl⟩ := value_set_ok_shape v w b hs
        simp [bothSet, Dict.lookup_setKey, htext]
  | absorb r => exact bothSet_set_properties v r hop
  | create conn =>
      rcases hc : v.create conn with e | ⟨w, b⟩
      · simp only [stepOp, hc]
        exact hv
      · simp only [stepOp, hc]
        rcases create_state_shape v conn w b hc with rfl | ⟨req, resp, hconn, rfl⟩
        · exact hv
        · exact bothSet_set_properties v resp (hop req resp hconn)
  | update conn =>
      rcases hc : v.update conn with e | ⟨w, b⟩
      · simp only [stepOp, hc]
        exact hv
      · simp only [stepOp, hc]
        rcases update_state_shape v conn w b hc with rfl | ⟨req, resp, hconn, rfl⟩
        · exact hv
        · exact bothSet_set_properties v resp (hop req resp hconn)
  | reload conn =>
      rcases hc : v.reload conn with e | w
      · simp only [stepOp, hc]
        exact hv
      · simp only [stepOp, hc]
        obtain ⟨req, resp, hconn, rfl⟩ := reload_state_shape v conn w hc
        exact bothSet_set_properties v resp (hop req resp hconn)

/-- C1: the claim that for every byte sequence B, setting `value` to B then
reading `value` returns B unchanged FAILS on the code.  The setter stores the
raw bytes unencoded while the getter base64-decodes whatever is stored: after
setting `b"aGk="` the getter returns `b"hi"`, and after setting `b"hi"` the
getter raises `binascii.Error`.  (`_get_payload` base64-encodes the stored
bytes, agreeing with the setter that the stored form is raw; only the getter
treats it as base64 at rest.) -/
theorem value_roundtrip_violated :
    Except.bind (v1.value_set [97, 71, 107, 61]) Variable.value_get
      = Except.ok (some [104, 105])
    ∧ ([104, 105] : ByteSeq) ≠ [97, 71, 107, 61]
    ∧ Except.bind (v1.value_set [104, 105]) Variable.value_get
      = Except.error (PyErr.binasciiError "Invalid base64-encoded string") :=
  ⟨by decide, by decide, by decide⟩

/-- C3: setting `text` while a `value` payload is present raises the
conflicting-fields error (`Error("Value and text are mutually exclusive.")`),
and symmetrically for `value` while `text` is present.  The exception is
raised before any write, so the variable — its previously-set field and its
whole property dictionary — is unchanged, stated via `stepOp`, and the
setters take no connection, so no remote call can occur. -/
theorem setter_conflict_leaves_state (v : Variable) (t : String) (b : ByteSeq) :
    ((Dict.lookup v._properties "value").isSome = true →
      v.text_set t = .error (PyErr.runtimeconfigError "Value and text are mutually exclusive.")
      ∧ stepOp v (Op.setText t) = v)
    ∧ ((Dict.lookup v._properties "text").isSome = true →
      v.value_set b = .error (PyErr.runtimeconfigError "Value and text are mutually exclusive.")
      ∧ stepOp v (Op.setValue b) = v) := by
  constructor
  · intro hval
    have h1 : v.text_set t
        = .error (PyErr.runtimeconfigError "Value and text are mutually exclusive.") := by
      unfold Variable.text_set
      rw [if_pos hval]
    exact ⟨h1, by simp only [stepOp, h1]⟩
  · intro htext
    have h1 : v.value_set b
        = .error (PyErr.runtimeconfigError "Value and text are mutually exclusive.") := by
      unfold Variable.value_set
      rw [if_pos htext]
    exact ⟨h1, by simp only [stepOp, h1]⟩

/-- C3 witness: a variable holding a value payload rejects `text`, a variable
holding a text payload rejects `value`, both unchanged. -/
theorem setter_conflict_leaves_state_witness :
    (vBytes.text_set "boom"
        = .error (PyErr.runtimeconfigError "Value and text are mutually exclusive.")
      ∧ stepOp vBytes (Op.setText "boom") = vBytes)
    ∧ (vText.value_set [1]
        = .error (PyErr.runtimeconfigError "Value and text are mutually exclusive.")
      ∧ stepOp vText (Op.setValue [1]) = vText) :=
  ⟨(setter_conflict_leaves_state vBytes "boom" [1]).1 (by decide),
   (setter_conflict_leaves_state vText "boom" [1]).2 (by decide)⟩

/-- C5: for every variable with a non-empty name, `full_name` is
`{config.full_name}/variables/{name}` and `path` is `full_name` prefixed with
`/`; with an empty name, `full_name` raises `ValueError` (the spec's
`InvalidStateError`). -/
theorem full_name_path_spec (v : Variable) :
    (v.name ≠ "" →
      v.full_name = .ok (v.config.full_name ++ "/variables/" ++ v.name)
      ∧ v.path = .ok ("/" ++ (v.config.full_name ++ "/variables/" ++ v.name)))
    ∧ (v.name = "" → v.full_name = .error (PyErr.valueError "Missing variable name.")) := by
  constructor
  · intro hn
    have h1 : v.full_name = .ok (v.config.full_name ++ "/variables/" ++ v.name) := by
      unfold Variable.full_name
      rw [if_neg hn]
    exact ⟨h1, by simp only [Variable.path, h1]⟩
  · intro hn
    unfold Variable.full_name
    rw [if_pos hn]

/-- C5 witness: `v1` under `projects/p/configs/c` has full name
`projects/p/configs/c/variables/v1` and path with a leading slash; the
empty-named variable raises. -/
theorem full_name_path_spec_witness :
    (v1.full_name = .ok "projects/p/configs/c/variables/v1"
      ∧ v1.path = .ok "/projects/p/configs/c/variables/v1")
    ∧ vEmpty.full_name = .error (PyErr.valueError "Missing variable name.") := by
  constructor
  · obtain ⟨h1, h2⟩ := (full_name_path_spec v1).1 (by decide)
    constructor
    · rw [h1]; decide
    · rw [h2]; decide
  · exact (full_name_path_spec vEmpty).2 rfl

/-- C10: when the property dictionary holds both a `text` and a `value` key
(reachable by absorbing a server response carrying both), `_get_payload`
serializes the `text` field and omits `value`: the `text` branch is tested
first. -/
theorem get_payload_text_precedence (v : Variable) (t w : JVal) (hn : v.name ≠ "")
    (ht : Dict.lookup v._properties "text" = some t)
    (_hw : Dict.lookup v._properties "value" = some w) :
    v.get_payload
      = .ok [("name", JVal.str (v.config.full_name ++ "/variables/" ++ v.name)), ("text", t)]
    ∧ Dict.lookup
        [("name", JVal.str (v.config.full_name ++ "/variables/" ++ v.name)), ("text", t)]
        "value" = none := by
  have hfn : v.full_name = .ok (v.config.full_name ++ "/variables/" ++ v.name) := by
    unfold Variable.full_name
    rw [if_neg hn]
  exact ⟨by simp only [Variable.get_payload, hfn, ht], rfl⟩

/-- C10 witness: `vBoth` holds both keys and serializes to name plus text
only. -/
theorem get_payload_text_precedence_witness :
    vBoth.get_payload
      = .ok [("name", JVal.str "projects/p/configs/c/variables/v1"), ("text", JVal.str "x")]
    ∧ Dict.lookup
        [("name", JVal.str "projects/p/configs/c/variables/v1"), ("text", JVal.str "x")]
        "value" = none := by
  obtain ⟨h1, _⟩ := get_payload_text_precedence vBoth (JVal.str "x") (JVal.str "eQ==")
    (by decide) rfl rfl
  constructor
  · rw [h1]; decide
  · decide

/-- C4: `_get_payload` on a variable (with a usable name) raises
`Error("No text or value set.")` when neither payload key is present;
with text `t` present it is exactly `{"name": full_name, "text": t}` (no
`value` key); with no `text` and bytes `b` stored under `value` it is exactly
`{"name": full_name, "value": b64encode b}` (no `text` key). -/
theorem get_payload_cases (v : Variable) (hn : v.name ≠ "") :
    (Dict.lookup v._properties "text" = none → Dict.lookup v._properties "value" = none →
      v.get_payload = .error (PyErr.runtimeconfigError "No text or value set."))
    ∧ (∀ t, Dict.lookup v._properties "text" = some (JVal.str t) →
      v.get_payload
        = .ok [("name", JVal.str (v.config.full_name ++ "/variables/" ++ v.name)),
               ("text", JVal.str t)])
    ∧ (∀ b, Dict.lookup v._properties "text" = none →
        Dict.lookup v._properties "value" = some (JVal.bytes b) →
      v.get_payload
        = .ok [("name", JVal.str (v.config.full_name ++ "/variables/" ++ v.name)),
               ("value", JVal.str (b64encode b))]) := by
  have hfn : v.full_name = .ok (v.config.full_name ++ "/variables/" ++ v.name) := by
    unfold Variable.full_name
    rw [if_neg hn]
  refine ⟨fun ht hw => ?_, fun t ht => ?_, fun b ht hw => ?_⟩
  · simp only [Variable.get_payload, hfn, ht, hw]
  · simp only [Variable.get_payload, hfn, ht]
  · simp only [Variable.get_payload, hfn, ht, hw]

/-- C4 witness: the three payload cases on concrete variables (`b64encode
b"hi"` is `"aGk="`). -/
theorem get_payload_cases_witness :
    v1.get_payload = .error (PyErr.runtimeconfigError "No text or value set.")
    ∧ vText.get_payload
        = .ok [("name", JVal.str "projects/p/configs/c/variables/v1"),
               ("text", JVal.str "hello")]
    ∧ vBytes.get_payload
        = .ok [("name", JVal.str "projects/p/configs/c/variables/v1"),
               ("value", JVal.str "aGk=")] := by
  refine ⟨(get_payload_cases v1 (by decide)).1 rfl rfl, ?_, ?_⟩
  · have h := (get_payload_cases vText (by decide)).2.1 "hello" rfl
    rw [h]; decide
  · have h := (get_payload_cases vBytes (by decide)).2.2 [104, 105] rfl rfl
    rw [h]; decide

/-- C6: when the connection reports `Conflict` on the POST, `create` returns
`False` with the variable — name and property dictionary — exactly as before
the call, and no exception; when the POST succeeds, `create` absorbs the
response via `_set_properties` and returns `True`. -/
theorem create_conflict_and_success (v : Variable) (conn : Connection) (data : Dict)
    (hp : v.get_payload = .ok data) :
    (conn ⟨"POST", v.config.path ++ "/variables", some data, none⟩ = .error .conflict →
      v.create conn = .ok (v, false))
    ∧ (∀ resp, conn ⟨"POST", v.config.path ++ "/variables", some data, none⟩ = .ok resp →
      v.create conn = .ok (v.set_properties resp, true)) := by
  constructor
  · intro hc
    simp only [Variable.create, hp, hc]
  · intro resp hc
    simp only [Variable.create, hp, hc]

/-- C6 witness: `vText.create` against the always-conflict stub returns the
untouched variable with `false`; against the always-succeed stub it absorbs
`respV2` and returns `true`. -/
theorem create_conflict_and_success_witness :
    vText.create connConflict = .ok (vText, false)
    ∧ vText.create connRespV2 = .ok (vText.set_properties respV2, true) :=
  ⟨(create_conflict_and_success vText connConflict
      [("name", JVal.str "projects/p/configs/c/variables/v1"), ("text", JVal.str "hello")]
      (by decide)).1 rfl,
   (create_conflict_and_success vText connRespV2
      [("name", JVal.str "projects/p/configs/c/variables/v1"), ("text", JVal.str "hello")]
      (by decide)).2 respV2 rfl⟩

/-- C7: when the connection reports `NotFound`, `update` returns `False`
without raising (variable untouched), whereas `reload` propagates the
not-found condition to the caller as an error, not a boolean. -/
theorem update_notfound_reload_propagates (v : Variable) (data : Dict) (p : String)
    (hp : v.get_payload = .ok data) (hpath : v.path = .ok p) :
    (∀ conn : Connection, conn ⟨"PUT", p, some data, none⟩ = .error .notFound →
      v.update conn = .ok (v, false))
    ∧ (∀ conn : Connection, conn ⟨"GET", p, none, none⟩ = .error .notFound →
      v.reload conn = .error (PyErr.api .notFound)) := by
  constructor
  · intro conn hc
    simp only [Variable.update, hp, hpath, hc]
  · intro conn hc
    simp only [Variable.reload, hpath, hc]

/-- C7 witness: against the always-not-found stub, `vText.update` returns
`false` with the variable untouched and `vText.reload` raises. -/
theorem update_notfound_reload_propagates_witness :
    vText.update connNotFound = .ok (vText, false)
    ∧ vText.reload connNotFound = .error (PyErr.api .notFound) :=
  ⟨(update_notfound_reload_propagates vText
      [("name", JVal.str "projects/p/configs/c/variables/v1"), ("text", JVal.str "hello")]
      "/projects/p/configs/c/variables/v1" (by decide) (by decide)).1 connNotFound rfl,
   (update_notfound_reload_propagates vText
      [("name", JVal.str "projects/p/configs/c/variables/v1"), ("text", JVal.str "hello")]
      "/projects/p/configs/c/variables/v1" (by decide) (by decide)).2 connNotFound rfl⟩

/-- C8: `exists` returns `True` when the GET succeeds and `False` when it
reports `NotFound`, and in both cases the result carries the very variable it
was called on: the name and the property dictionary are identical before and
after (the code discards the response body). -/
theorem exists_true_false_frame (v : Variable) (p : String) (hpath : v.path = .ok p) :
    (∀ (conn : Connection) resp,
      conn ⟨"GET", p, none, some [("fields", JVal.str "name")]⟩ = .ok resp →
      v.exists_ conn = .ok (v, true))
    ∧ (∀ conn : Connection,
      conn ⟨"GET", p, none, some [("fields", JVal.str "name")]⟩ = .error .notFound →
      v.exists_ conn = .ok (v, false)) := by
  constructor
  · intro conn resp hc
    simp only [Variable.exists_, hpath, hc]
  · intro conn hc
    simp only [Variable.exists_, hpath, hc]

/-- C8 witness: `vBytes.exists_` is `true` against the always-succeed stub
and `false` against the always-not-found stub, the variable identical either
way. -/
theorem exists_true_false_frame_witness :
    vBytes.exists_ connRespV2 = .ok (vBytes, true)
    ∧ vBytes.exists_ connNotFound = .ok (vBytes, false) :=
  ⟨(exists_true_false_frame vBytes "/projects/p/configs/c/variables/v1"
      (by decide)).1 connRespV2 respV2 rfl,
   (exists_true_false_frame vBytes "/projects/p/configs/c/variables/v1"
      (by decide)).2 connNotFound rfl⟩

/-- C9: `_set_properties` wholly replaces the property dictionary — the
result is exactly the absorbed resource minus its `name` key, whatever was
held before — and overwrites the local name from the resource's
fully-qualified name when one is present (kept when absent). -/
theorem set_properties_replaces (v : Variable) (r : Dict) :
    (Dict.lookup r "name" = none → v.set_properties r = ⟨v.name, v.config, r⟩)
    ∧ (∀ fn, Dict.lookup r "name" = some (JVal.str fn) →
      v.set_properties r
        = ⟨variable_name_from_full_name fn, v.config, Dict.erase r "name"⟩) := by
  constructor
  · intro hn
    simp only [Variable.set_properties, hn]
  · intro fn hn
    have hmk : String.mk fn.toList = fn := by
      cases fn
      rfl
    simp only [Variable.set_properties, hn, jvalChars, hmk]

/-- C9 witness: absorbing
`{"name": "projects/p/configs/c/variables/v2", "text": "x"}` into a variable
holding a `value` payload renames it to `v2`, replaces the dictionary with
`{"text": "x"}`, and in particular clears the previously held `value`. -/
theorem set_properties_replaces_witness :
    vBytes.set_properties respV2 = ⟨"v2", cfg0, [("text", JVal.str "x")]⟩
    ∧ Dict.lookup (vBytes.set_properties respV2)._properties "value" = none := by
  constructor
  · have h := (set_properties_replaces vBytes respV2).2
      "projects/p/configs/c/variables/v2" rfl
    rw [h]; decide
  · decide

/-- C2 counterexample: as stated, the claim fails — absorbing a server
response that carries both `text` and `value` (here `"eQ=="`, base64 for
`b"y"`) is one of the listed operations and leaves BOTH keys in the property
dictionary: `_set_properties` copies the resource without enforcing the
exclusivity the setters enforce. -/
theorem both_payload_keys_reachable :
    bothSet (stepOp v1
      (Op.absorb [("text", JVal.str "x"), ("value", JVal.str "eQ==")])) = true := by
  decide

/-- C2 (amended): for every variable whose property dictionary does not
already hold both payload keys, and every sequence of operations (setting
`text`, setting `value`, absorbing a resource via `_set_properties` /
`from_api_repr`, `create`, `update`, `reload`) in which every absorbed server
resource carries at most one of the `text` and `value` keys, the property
dictionary never holds both keys simultaneously. -/
theorem text_value_never_both (v : Variable) (ops : List Op)
    (hv : bothSet v = false) (hops : ∀ op ∈ ops, opOk op) :
    bothSet (List.foldl stepOp v ops) = false := by
  induction ops generalizing v with
  | nil => exact hv
  | cons op rest ih =>
      exact ih (stepOp v op)
        (stepOp_bothSet v op hv (hops op (by simp)))
        (fun o ho => hops o (by simp [ho]))

/-- C2 witness: a concrete run — set a value, absorb a well-formed renaming
response, reload through a stub connection, set a text — never holds both
keys. -/
theorem text_value_never_both_witness :
    bothSet (List.foldl stepOp v1
      [Op.setValue [104, 105], Op.absorb respV2, Op.reload connRespV2, Op.setText "y"])
      = false := by
  refine text_value_never_both v1
    [Op.setValue [104, 105], Op.absorb respV2, Op.reload connRespV2, Op.setText "y"]
    (by decide) ?_
  intro op hop
  simp only [List.mem_cons, List.not_mem_nil, or_false] at hop
  rcases hop with rfl | rfl | rfl | rfl
  · trivial
  · exact (by decide : respOk respV2 = true)
  · intro req resp hr
    have hre : respV2 = resp := by
      injection hr
    rw [← hre]
    decide
  · trivial
